import Mathlib

/-!
Shallow embedding of the quantum_simulation repository's physics core.

The repository contains two coexisting variants of the engine:

* the *plain* variant: `particle.js` (class `Particle`), the second
  `PhysicsEngine` class of `src/unnamed/part_002` and the `Simulation`
  class of `simulation.js`;
* the *typed* variant: the `Particle` class of `src/unnamed/part_004`
  (electron / proton / neutron / quark / free), the `PhysicsEngine`
  classes of `src/unnamed/part_003` and of the first half of
  `src/unnamed/part_002`, and the `Simulation` class of
  `src/unnamed/part_000`.

JavaScript numbers are modelled as real numbers; `Math.sqrt`, `Math.abs`,
`Math.sign`, `Math.min`, `Math.max` and `Math.round` become `Real.sqrt`,
`|·|`, `Real.sign`, `min`, `max` and `round`.  Randomness (`Math.random`)
is modelled by passing the stream of drawn values as an argument.
-/

noncomputable section

namespace QuantumSim

/-- Particle of the plain variant (`particle.js`): position, velocity,
accumulated acceleration (`applyForce` divides the force by the mass on
accumulation), charge, mass and display radius. -/
structure PParticle where
  x : ℝ
  y : ℝ
  vx : ℝ
  vy : ℝ
  ax : ℝ
  ay : ℝ
  charge : ℝ
  mass : ℝ
  radius : ℝ

/-- Embedding of `Particle.update(dt)` from `particle.js` (lines 100-141):
`vx += ax*dt; vy += ay*dt; x += vx*dt; y += vy*dt; ax = 0; ay = 0`.
There is no damping step and no guard on `dt`. -/
def PParticle.update (p : PParticle) (dt : ℝ) : PParticle :=
  let vx := p.vx + p.ax * dt
  let vy := p.vy + p.ay * dt
  { p with vx := vx, vy := vy,
           x := p.x + vx * dt, y := p.y + vy * dt,
           ax := 0, ay := 0 }

/-- Embedding of `Particle.applyForce(fx, fy)` from `particle.js`:
`ax += fx / mass; ay += fy / mass`. -/
def PParticle.applyForce (p : PParticle) (fx fy : ℝ) : PParticle :=
  { p with ax := p.ax + fx / p.mass, ay := p.ay + fy / p.mass }

/-- The `type` string of the typed variant's `Particle`
(`src/unnamed/part_004`). -/
inductive PKind where
  | electron
  | proton
  | neutron
  | quark
  | free
deriving DecidableEq

/-- Particle of the typed variant (`src/unnamed/part_004`).  The non-owning
`nucleus` / `parent` references are modelled by a presence flag together
with a snapshot of the anchor position; `isNucleus` is the externally set
flag tested in `update`.  The constructor sets `damping = 0.99` for every
particle. -/
structure TParticle where
  x : ℝ
  y : ℝ
  vx : ℝ
  vy : ℝ
  ax : ℝ
  ay : ℝ
  charge : ℝ
  mass : ℝ
  radius : ℝ
  kind : PKind
  hasNucleus : Bool
  hasParent : Bool
  isNucleus : Bool
  nucleusX : ℝ
  nucleusY : ℝ
  orbitalAngle : ℝ
  orbitalSpeed : ℝ
  orbitalRadius : ℝ
  localAngle : ℝ
  localRadius : ℝ
  parentX : ℝ
  parentY : ℝ
  damping : ℝ

/-- Embedding of `Particle.update(dt)` from `src/unnamed/part_004`
(lines 46-77): electrons with a nucleus and quarks with a parent follow
their anchor on a phase angle; `isNucleus` particles do not move; all
other particles integrate `v += a*dt`, damp `v *= damping`, then
`pos += v*dt`.  The accumulated acceleration is reset at the end in
every branch. -/
def TParticle.update (p : TParticle) (dt : ℝ) : TParticle :=
  let p1 :=
    if p.kind = PKind.electron ∧ p.hasNucleus then
      let a := p.orbitalAngle + p.orbitalSpeed * dt
      { p with orbitalAngle := a,
               x := p.nucleusX + Real.cos a * p.orbitalRadius,
               y := p.nucleusY + Real.sin a * p.orbitalRadius }
    else if p.kind = PKind.quark ∧ p.hasParent then
      let a := p.localAngle + 0.05 * dt
      { p with localAngle := a,
               x := p.parentX + Real.cos a * p.localRadius,
               y := p.parentY + Real.sin a * p.localRadius }
    else if p.isNucleus then
      p
    else
      let vx := (p.vx + p.ax * dt) * p.damping
      let vy := (p.vy + p.ay * dt) * p.damping
      { p with vx := vx, vy := vy,
               x := p.x + vx * dt, y := p.y + vy * dt }
  { p1 with ax := 0, ay := 0 }

/-- Embedding of `Particle.applyForce(fx, fy)` from `src/unnamed/part_004`. -/
def TParticle.applyForce (p : TParticle) (fx fy : ℝ) : TParticle :=
  { p with ax := p.ax + fx / p.mass, ay := p.ay + fy / p.mass }

/-- Embedding of `Particle.checkBoundary(width, height)` from
`src/unnamed/part_004` (lines 85-102): for each axis an `if`/`else if`
pair clamps the position to the wall-adjusted edge and sets the
perpendicular velocity component to the inward-pointing absolute value
(`vx = Math.abs(vx)` at the left wall, `vx = -Math.abs(vx)` at the right
wall, and symmetrically in `y`). -/
def TParticle.checkBoundary (p : TParticle) (width height : ℝ) : TParticle :=
  let p1 :=
    if p.x - p.radius < 0 then
      { p with x := p.radius, vx := |p.vx| }
    else if p.x + p.radius > width then
      { p with x := width - p.radius, vx := -|p.vx| }
    else
      p
  if p1.y - p1.radius < 0 then
    { p1 with y := p1.radius, vy := |p1.vy| }
  else if p1.y + p1.radius > height then
    { p1 with y := height - p1.radius, vy := -|p1.vy| }
  else
    p1

/-- Result record of the pair-force computations (`{ fx, fy, distance }`). -/
structure ForceResult where
  fx : ℝ
  fy : ℝ
  distance : ℝ

/-- Constants of the first `PhysicsEngine` class of `src/unnamed/part_002`
(lines 1-93): `k = 500`, a settable `forceMultiplier` (initially `1.0`)
and `minDistance = 20`.  This engine has no `maxForce`. -/
structure PhysicsEngine1 where
  k : ℝ
  forceMultiplier : ℝ
  minDistance : ℝ

/-- The constructor values of the first `part_002` engine. -/
def PhysicsEngine1.mk0 : PhysicsEngine1 :=
  { k := 500, forceMultiplier := 1.0, minDistance := 20 }

/-- Embedding of `calculateForce(p1, p2)` of the first `part_002` engine
(lines 9-28): distance is clamped below by `minDistance`, the magnitude
`k*q1*q2*forceMultiplier / distance²` is NOT capped, and the components
are `magnitude * d/distance`. -/
def PhysicsEngine1.calculateForce (e : PhysicsEngine1) (p1 p2 : PParticle) :
    ForceResult :=
  let dx := p2.x - p1.x
  let dy := p2.y - p1.y
  let distance0 := Real.sqrt (dx * dx + dy * dy)
  let distance := if distance0 < e.minDistance then e.minDistance else distance0
  let forceMagnitude := e.k * p1.charge * p2.charge * e.forceMultiplier /
    (distance * distance)
  { fx := forceMagnitude * dx / distance,
    fy := forceMagnitude * dy / distance,
    distance := distance }

/-- Embedding of the potential-energy term of `calculateTotalEnergy` of the
first `part_002` engine (lines 74-79): `k * q1 * q2 * forceMultiplier /
distance` where `distance = sqrt(dx²+dy²)` is NOT clamped by
`minDistance`. -/
def PhysicsEngine1.pairPotentialEnergy (e : PhysicsEngine1) (p1 p2 : PParticle) :
    ℝ :=
  let dx := p2.x - p1.x
  let dy := p2.y - p1.y
  let distance := Real.sqrt (dx * dx + dy * dy)
  e.k * p1.charge * p2.charge * e.forceMultiplier / distance

/-- Constants of the second `PhysicsEngine` class of `src/unnamed/part_002`
(lines 111-599): canvas bounds plus `coulombConstant = 5000` (settable via
`updateCoulombConstant`), `minDistance = 20`, `maxForce = 100`,
`damping = 0.995`. -/
structure PhysicsEngine2 where
  width : ℝ
  height : ℝ
  coulombConstant : ℝ
  minDistance : ℝ
  maxForce : ℝ
  damping : ℝ

/-- The constructor values of the second `part_002` engine. -/
def PhysicsEngine2.mk0 (width height : ℝ) : PhysicsEngine2 :=
  { width := width, height := height, coulombConstant := 5000,
    minDistance := 20, maxForce := 100, damping := 0.995 }

/-- Embedding of the body of the pair loop of `applyCoulombForce` of the
second `part_002` engine (lines 248-367, steps 1-7): clamp the distance
below by `minDistance`, compute `k*q1*q2/distance²`, cap it at
`maxForce * Math.sign(magnitude)` when its absolute value exceeds
`maxForce`, and decompose along `(dx/distance, dy/distance)`. -/
def PhysicsEngine2.coulombPairForce (e : PhysicsEngine2) (p1 p2 : PParticle) :
    ℝ × ℝ :=
  let dx := p2.x - p1.x
  let dy := p2.y - p1.y
  let distance0 := Real.sqrt (dx * dx + dy * dy)
  let distance := if distance0 < e.minDistance then e.minDistance else distance0
  let forceMagnitude0 := e.coulombConstant * p1.charge * p2.charge /
    (distance * distance)
  let forceMagnitude :=
    if |forceMagnitude0| > e.maxForce then e.maxForce * Real.sign forceMagnitude0
    else forceMagnitude0
  (forceMagnitude * (dx / distance), forceMagnitude * (dy / distance))

/-- Embedding of step 8 of the pair loop of `applyCoulombForce` (lines
380-384): `p1.applyForce(fx, fy); p2.applyForce(-fx, -fy)`.  The result
is the pair of force vectors handed to `p1` and to `p2`. -/
def PhysicsEngine2.pairApplication (e : PhysicsEngine2) (p1 p2 : PParticle) :
    (ℝ × ℝ) × (ℝ × ℝ) :=
  let f := e.coulombPairForce p1 p2
  ((f.1, f.2), (-f.1, -f.2))

/-- Embedding of `calculatePotentialEnergy` of the second `part_002` engine
(lines 499-528), restricted to one pair: `k * q1 * q2 / distance` with the
distance clamped below by `minDistance` (the same clamp as the force) and
no `maxForce` cap. -/
def PhysicsEngine2.pairPotentialEnergy (e : PhysicsEngine2) (p1 p2 : PParticle) :
    ℝ :=
  let dx := p2.x - p1.x
  let dy := p2.y - p1.y
  let distance0 := Real.sqrt (dx * dx + dy * dy)
  let distance := if distance0 < e.minDistance then e.minDistance else distance0
  e.coulombConstant * p1.charge * p2.charge / distance

/-- Embedding of `handleBoundaries` of the second `part_002` engine (lines
400-468), restricted to one particle: four independent `if`s, one per
wall; each clamps the position, inverts the perpendicular velocity
component (`v *= -1`) and multiplies both components by `damping`. -/
def PhysicsEngine2.handleBoundary (e : PhysicsEngine2) (p : PParticle) :
    PParticle :=
  let p1 :=
    if p.x - p.radius < 0 then
      { p with x := p.radius, vx := p.vx * -1 * e.damping, vy := p.vy * e.damping }
    else p
  let p2 :=
    if p1.x + p1.radius > e.width then
      { p1 with x := e.width - p1.radius, vx := p1.vx * -1 * e.damping,
                vy := p1.vy * e.damping }
    else p1
  let p3 :=
    if p2.y - p2.radius < 0 then
      { p2 with y := p2.radius, vy := p2.vy * -1 * e.damping,
                vx := p2.vx * e.damping }
    else p2
  if p3.y + p3.radius > e.height then
    { p3 with y := e.height - p3.radius, vy := p3.vy * -1 * e.damping,
              vx := p3.vx * e.damping }
  else p3

/-- Embedding of the loop of `handleBoundaries` over the particle list. -/
def PhysicsEngine2.handleBoundaries (e : PhysicsEngine2) (ps : List PParticle) :
    List PParticle :=
  ps.map e.handleBoundary

/-- Constants of the `PhysicsEngine` class of `src/unnamed/part_003`:
`k = 500`, `minDistance = 20`, `maxForce = 5`. -/
structure PhysicsEngine3 where
  k : ℝ
  minDistance : ℝ
  maxForce : ℝ

/-- The constructor values of the `part_003` engine. -/
def PhysicsEngine3.mk0 : PhysicsEngine3 :=
  { k := 500, minDistance := 20, maxForce := 5 }

/-- Embedding of `calculateCoulombForce(p1, p2)` from `src/unnamed/part_003`
(lines 9-33): distance clamped below by `minDistance`, the magnitude
`k*q1*q2/distance²` capped at `Math.sign(magnitude) * maxForce` when its
absolute value exceeds `maxForce`, components along `(dx/distance,
dy/distance)`. -/
def PhysicsEngine3.calculateCoulombForce (e : PhysicsEngine3)
    (p1 p2 : TParticle) : ForceResult :=
  let dx := p2.x - p1.x
  let dy := p2.y - p1.y
  let distance0 := Real.sqrt (dx * dx + dy * dy)
  let distance := if distance0 < e.minDistance then e.minDistance else distance0
  let forceMagnitude0 := e.k * p1.charge * p2.charge / (distance * distance)
  let forceMagnitude :=
    if |forceMagnitude0| > e.maxForce then Real.sign forceMagnitude0 * e.maxForce
    else forceMagnitude0
  { fx := forceMagnitude * (dx / distance),
    fy := forceMagnitude * (dy / distance),
    distance := distance }

/-- Embedding of `calculatePotentialEnergy(p1, p2)` from
`src/unnamed/part_003` (lines 36-48): `k * q1 * q2 / distance` with the
distance clamped below by `minDistance` and no `maxForce` cap. -/
def PhysicsEngine3.calculatePotentialEnergy (e : PhysicsEngine3)
    (p1 p2 : TParticle) : ℝ :=
  let dx := p2.x - p1.x
  let dy := p2.y - p1.y
  let distance0 := Real.sqrt (dx * dx + dy * dy)
  let distance := if distance0 < e.minDistance then e.minDistance else distance0
  e.k * p1.charge * p2.charge / distance

/-- Embedding of the body of the pair loop of `applyForces` from
`src/unnamed/part_003` (lines 64-68): the pair of force vectors handed to
`p1` and to `p2`, namely `(fx*m, fy*m)` and `(-fx*m, -fy*m)` for force
multiplier `m`. -/
def PhysicsEngine3.pairApplication (e : PhysicsEngine3) (p1 p2 : TParticle)
    (forceMultiplier : ℝ) : (ℝ × ℝ) × (ℝ × ℝ) :=
  let f := e.calculateCoulombForce p1 p2
  ((f.fx * forceMultiplier, f.fy * forceMultiplier),
   (-f.fx * forceMultiplier, -f.fy * forceMultiplier))

/-- One application of the pair-loop body of `applyCoulombForce`
(`part_002`, second engine) at indices `i < j` of the particle list:
`p1.applyForce(fx, fy); p2.applyForce(-fx, -fy)`. -/
def PhysicsEngine2.applyPairAt (e : PhysicsEngine2) (ps : List PParticle)
    (i j : ℕ) : List PParticle :=
  match ps[i]?, ps[j]? with
  | some p1, some p2 =>
      let f := e.coulombPairForce p1 p2
      (ps.set i (p1.applyForce f.1 f.2)).set j (p2.applyForce (-f.1) (-f.2))
  | _, _ => ps

/-- Embedding of the double loop of `applyCoulombForce` (`part_002`, second
engine, lines 248-385): every unordered pair `i < j` is visited exactly
once and the loop body applied. -/
def PhysicsEngine2.applyCoulombForce (e : PhysicsEngine2)
    (ps : List PParticle) : List PParticle :=
  (List.range ps.length).foldl
    (fun acc i =>
      ((List.range ps.length).drop (i + 1)).foldl
        (fun acc2 j => e.applyPairAt acc2 i j) acc)
    ps

/-- One `Math.random()` bundle consumed per created particle: the two
position draws of `Simulation.initializeParticles`, its charge draw, and
the two velocity draws of the `Particle` constructor. -/
structure RandomDraw where
  posX : ℝ
  posY : ℝ
  chargeDraw : ℝ
  velX : ℝ
  velY : ℝ

/-- Embedding of the `Particle` constructor of `particle.js` (lines 28-87):
random velocity `(r - 0.5) * 2` per component, zero acceleration,
`mass = 1`, `radius = 8`. -/
def mkParticle (x y charge rvx rvy : ℝ) : PParticle :=
  { x := x, y := y, vx := (rvx - 0.5) * 2, vy := (rvy - 0.5) * 2,
    ax := 0, ay := 0, charge := charge, mass := 1, radius := 8 }

/-- Embedding of the charge assignment of
`Simulation.initializeParticles`: `random < 0.4` gives `+1`,
`random < 0.8` gives `-1`, otherwise `0`. -/
def chargeFromDraw (r : ℝ) : ℝ :=
  if r < 0.4 then 1 else if r < 0.8 then -1 else 0

/-- Embedding of `Simulation.initializeParticles(count)` from
`simulation.js` (lines 133-180): the particle array is replaced by a
fresh array; the loop `for (let i = 0; i < count; i++)` runs `count`
times (zero times for any non-positive `count`), each iteration creating
a particle at `(50 + r*(width-100), 50 + r*(height-100))` with a drawn
charge.  There is no validation of `count` and no failure path. -/
def initializeParticles (width height : ℝ) (count : ℤ)
    (draws : ℕ → RandomDraw) : List PParticle :=
  (List.range count.toNat).map fun i =>
    let d := draws i
    mkParticle (50 + d.posX * (width - 100)) (50 + d.posY * (height - 100))
      (chargeFromDraw d.chargeDraw) d.velX d.velY

/-- State of the `Simulation` class of `simulation.js` (plain variant):
physics engine, particle array, running flag, `lastTime`, the rolling
`frameTimes` window with its maximum length (constructor value 60), and
the last computed `fps`. -/
structure SimState where
  engine : PhysicsEngine2
  particles : List PParticle
  isRunning : Bool
  lastTime : ℝ
  frameTimes : List ℝ
  frameTimesMaxLength : ℕ
  fps : ℤ

/-- Embedding of `Simulation.initializeParticles` at the state level: the
prior collection is discarded unconditionally. -/
def SimState.initializeParticles (s : SimState) (count : ℤ)
    (draws : ℕ → RandomDraw) : SimState :=
  { s with particles :=
      QuantumSim.initializeParticles s.engine.width s.engine.height count draws }

/-- Embedding of the non-rendering part of `Simulation.animate(currentTime)`
from `simulation.js` (lines 236-362): if not running, return; otherwise
`dt = (currentTime - lastTime)/1000`, `lastTime = currentTime`,
`clampedDt = Math.min(dt, 0.1)`; then `applyCoulombForce`, per-particle
`update(clampedDt)`, `handleBoundaries`; finally push the *unclamped*
`dt` onto `frameTimes` (shifting when over 60 entries) and set
`fps = Math.round(1 / Math.max(mean(frameTimes), 0.001))`. -/
def SimState.animate (s : SimState) (currentTime : ℝ) : SimState :=
  if s.isRunning = false then s
  else
    let dt := (currentTime - s.lastTime) / 1000
    let clampedDt := min dt 0.1
    let ps1 := s.engine.applyCoulombForce s.particles
    let ps2 := ps1.map fun p => p.update clampedDt
    let ps3 := s.engine.handleBoundaries ps2
    let ft1 := s.frameTimes ++ [dt]
    let ft2 := if ft1.length > s.frameTimesMaxLength then ft1.tail else ft1
    let avgFrameTime := ft2.sum / (ft2.length : ℝ)
    { s with particles := ps3, lastTime := currentTime, frameTimes := ft2,
             fps := round (1 / max avgFrameTime 0.001) }

/-- Embedding of the `averageVelocity` computation of
`Simulation.getStats` (`simulation.js`, lines 462-489): the summed speeds
divided by `Math.max(particles.length, 1)`, so the empty simulation
yields `0`, not `NaN`. -/
def averageVelocity (ps : List PParticle) : ℝ :=
  (ps.map fun p => Real.sqrt (p.vx * p.vx + p.vy * p.vy)).sum /
    ((max ps.length 1 : ℕ) : ℝ)

/-- Modelled from the spec (§4.2), for refinement comparison only: the
claimed `Free`-mode integration sequence, `v += (F/m)·dt`, then
`v *= damping`, then `position += v·dt`, then zero the accumulated
force — on a plain-variant particle (whose `ax, ay` store `F/m`). -/
def specFreeUpdateP (damping : ℝ) (p : PParticle) (dt : ℝ) : PParticle :=
  let vx := (p.vx + p.ax * dt) * damping
  let vy := (p.vy + p.ay * dt) * damping
  { p with vx := vx, vy := vy,
           x := p.x + vx * dt, y := p.y + vy * dt,
           ax := 0, ay := 0 }

/-- Modelled from the spec (§4.2), for refinement comparison only: the same
claimed sequence on a typed-variant particle. -/
def specFreeUpdateT (damping : ℝ) (p : TParticle) (dt : ℝ) : TParticle :=
  let vx := (p.vx + p.ax * dt) * damping
  let vy := (p.vy + p.ay * dt) * damping
  { p with vx := vx, vy := vy,
           x := p.x + vx * dt, y := p.y + vy * dt,
           ax := 0, ay := 0 }

/-- Modelled from the spec (§4.1), for refinement comparison only: the
claimed pair potential energy `k · q1 · q2 / r` with `r` the Euclidean
distance clamped below by `minDistance`. -/
def specPairPotentialEnergy (k minDistance x1 y1 q1 x2 y2 q2 : ℝ) : ℝ :=
  k * q1 * q2 /
    max (Real.sqrt ((x2 - x1) * (x2 - x1) + (y2 - y1) * (y2 - y1))) minDistance

/-! ### Concrete instances used by witnesses and counterexamples -/

/-- The second `part_002` engine at its constructor values on an 800×600
canvas. -/
def engine0 : PhysicsEngine2 := PhysicsEngine2.mk0 800 600

/-- A plain-variant particle with velocity `(1, 0)` and no accumulated
force. -/
def pC2 : PParticle :=
  { x := 0, y := 0, vx := 1, vy := 0, ax := 0, ay := 0,
    charge := 1, mass := 1, radius := 8 }

/-- A plain-variant particle with accumulated acceleration `(3, 0)`. -/
def p8 : PParticle :=
  { x := 0, y := 0, vx := 2, vy := 0, ax := 3, ay := 0,
    charge := 1, mass := 1, radius := 8 }

/-- A typed-variant free particle well inside an 800×600 canvas, with the
constructor's damping value `0.99`. -/
def tC2 : TParticle :=
  { x := 30, y := 30, vx := 1, vy := 0, ax := 0, ay := 0,
    charge := 1, mass := 1, radius := 8,
    kind := PKind.free, hasNucleus := false, hasParent := false,
    isNucleus := false, nucleusX := 0, nucleusY := 0,
    orbitalAngle := 0, orbitalSpeed := 0, orbitalRadius := 0,
    localAngle := 0, localRadius := 0, parentX := 0, parentY := 0,
    damping := 0.99 }

/-- A typed-variant particle one unit inside the left wall with an
already-inward velocity `vx = 5`. -/
def tLeft : TParticle :=
  { tC2 with x := 1, radius := 4, vx := 5, vy := -7, y := 1 }

/-- A plain-variant particle well inside the 800×600 canvas. -/
def qIn : PParticle :=
  { x := 400, y := 300, vx := 2, vy := -3, ax := 0, ay := 0,
    charge := -1, mass := 1, radius := 8 }

/-!
### C8 — integration with `dt ≤ 0`

The spec claims `dt ≤ 0` is a no-op.  Neither `update` guards `dt`; at
`dt = 0` the plain variant still zeroes the accumulated acceleration and
the typed variant additionally rescales the velocity by its damping
factor.
-/

/-- C8 (counterexample): `Particle.update(0)` of `particle.js` is not a
no-op: a particle carrying accumulated acceleration `3` has it reset to
`0` by the call, though the claim says the accumulated force is left
exactly as it was. -/
theorem update_zero_dt_not_noop :
    (p8.update 0).ax = 0 ∧ p8.ax = 3 ∧ (0 : ℝ) ≠ 3 := by
  refine ⟨?_, rfl, by norm_num⟩
  simp [PParticle.update, p8]

/-- C8 (amended): neither `update` guards `dt`.  At `dt = 0` the plain
variant (`particle.js`) leaves position and velocity unchanged but
zeroes the accumulated acceleration; the typed variant
(`src/unnamed/part_004`) additionally multiplies the velocity of a free,
non-nucleus particle by its damping factor. -/
theorem update_zero_dt_effect (p : PParticle) (q : TParticle)
    (hk : q.kind = PKind.free) (hn : q.isNucleus = false) :
    (p.update 0).x = p.x ∧ (p.update 0).y = p.y ∧
    (p.update 0).vx = p.vx ∧ (p.update 0).vy = p.vy ∧
    (p.update 0).ax = 0 ∧ (p.update 0).ay = 0 ∧
    (q.update 0).vx = q.vx * q.damping ∧
    (q.update 0).ax = 0 := by
  have hfree : ¬ (q.kind = PKind.electron ∧ q.hasNucleus = true) := by
    rintro ⟨h, -⟩
    rw [hk] at h
    exact PKind.noConfusion h
  have hquark : ¬ (q.kind = PKind.quark ∧ q.hasParent = true) := by
    rintro ⟨h, -⟩
    rw [hk] at h
    exact PKind.noConfusion h
  refine ⟨?_, ?_, ?_, ?_, ?_, ?_, ?_, ?_⟩ <;>
    simp [PParticle.update, TParticle.update, hfree, hquark, hn]

/-- C8 (witness): the amended statement at the concrete particles `p8`
and `tC2`. -/
theorem update_zero_dt_effect_witness :
    (p8.update 0).x = p8.x ∧ (p8.update 0).y = p8.y ∧
    (p8.update 0).vx = p8.vx ∧ (p8.update 0).vy = p8.vy ∧
    (p8.update 0).ax = 0 ∧ (p8.update 0).ay = 0 ∧
    (tC2.update 0).vx = tC2.vx * tC2.damping ∧
    (tC2.update 0).ax = 0 :=
  update_zero_dt_effect p8 tC2 rfl rfl

/-!
### C9 — idempotence of the boundary check on in-bounds particles
-/

/-- C9: a particle at least its radius away from every wall is left
exactly unchanged by one boundary-enforcement call, and likewise by two
calls in succession, both by `Particle.checkBoundary` of
`src/unnamed/part_004` and by the per-particle body of
`handleBoundaries` of the second `part_002` engine. -/
theorem boundary_check_idempotent_in_bounds
    (p : TParticle) (w h : ℝ) (e : PhysicsEngine2) (q : PParticle)
    (hp1 : p.radius ≤ p.x) (hp2 : p.x + p.radius ≤ w)
    (hp3 : p.radius ≤ p.y) (hp4 : p.y + p.radius ≤ h)
    (hq1 : q.radius ≤ q.x) (hq2 : q.x + q.radius ≤ e.width)
    (hq3 : q.radius ≤ q.y) (hq4 : q.y + q.radius ≤ e.height) :
    p.checkBoundary w h = p ∧
    (p.checkBoundary w h).checkBoundary w h = p ∧
    e.handleBoundary q = q ∧
    e.handleBoundary (e.handleBoundary q) = q := by
  have c1 : ¬ (p.x - p.radius < 0) := by push_neg; linarith
  have c2 : ¬ (p.x + p.radius > w) := by push_neg; linarith
  have c3 : ¬ (p.y - p.radius < 0) := by push_neg; linarith
  have c4 : ¬ (p.y + p.radius > h) := by push_neg; linarith
  have d1 : ¬ (q.x - q.radius < 0) := by push_neg; linarith
  have d2 : ¬ (q.x + q.radius > e.width) := by push_neg; linarith
  have d3 : ¬ (q.y - q.radius < 0) := by push_neg; linarith
  have d4 : ¬ (q.y + q.radius > e.height) := by push_neg; linarith
  have hT : p.checkBoundary w h = p := by
    simp [TParticle.checkBoundary, c1, c2, c3, c4]
  have hP : e.handleBoundary q = q := by
    simp [PhysicsEngine2.handleBoundary, d1, d2, d3, d4]
  refine ⟨hT, ?_, hP, ?_⟩
  · rw [hT, hT]
  · rw [hP, hP]

/-- C9 (witness): the idempotence statement at the concrete in-bounds
particles `tC2` and `pC2` (shifted inside the canvas) on the default
engine. -/
theorem boundary_check_idempotent_in_bounds_witness :
    (tC2.checkBoundary 800 600 = tC2 ∧
     (tC2.checkBoundary 800 600).checkBoundary 800 600 = tC2 ∧
     engine0.handleBoundary qIn = qIn ∧
     engine0.handleBoundary (engine0.handleBoundary qIn) = qIn) :=
  boundary_check_idempotent_in_bounds tC2 800 600 engine0 qIn
    (by norm_num [tC2]) (by norm_num [tC2]) (by norm_num [tC2]) (by norm_num [tC2])
    (by norm_num [qIn, engine0, PhysicsEngine2.mk0])
    (by norm_num [qIn, engine0, PhysicsEngine2.mk0])
    (by norm_num [qIn, engine0, PhysicsEngine2.mk0])
    (by norm_num [qIn, engine0, PhysicsEngine2.mk0])

/-!
### C10 — corrected velocity always points back into the domain
-/

/-- C10: in `Particle.checkBoundary` of `src/unnamed/part_004`, the
corrected velocity component perpendicular to a violated wall always
points back into the domain regardless of its sign before the call: the
left wall sets `vx = |vx| ≥ 0`, the right wall sets `vx = -|vx| ≤ 0`,
and symmetrically for the top and bottom walls. -/
theorem checkBoundary_velocity_points_inward (p : TParticle) (w h : ℝ) :
    (p.x - p.radius < 0 →
      (p.checkBoundary w h).vx = |p.vx| ∧ 0 ≤ (p.checkBoundary w h).vx) ∧
    (¬ p.x - p.radius < 0 → p.x + p.radius > w →
      (p.checkBoundary w h).vx = -|p.vx| ∧ (p.checkBoundary w h).vx ≤ 0) ∧
    (p.y - p.radius < 0 →
      (p.checkBoundary w h).vy = |p.vy| ∧ 0 ≤ (p.checkBoundary w h).vy) ∧
    (¬ p.y - p.radius < 0 → p.y + p.radius > h →
      (p.checkBoundary w h).vy = -|p.vy| ∧ (p.checkBoundary w h).vy ≤ 0) := by
  unfold TParticle.checkBoundary
  refine ⟨fun hx => ?_, fun hx1 hx2 => ?_, fun hy => ?_, fun hy1 hy2 => ?_⟩
  · simp only [hx, if_true, ite_true]
    split_ifs <;> simp [abs_nonneg]
  · simp only [hx1, hx2, if_false, ite_false, if_true, ite_true, gt_iff_lt]
    split_ifs <;> simp [abs_nonneg, neg_nonpos]
  · split_ifs <;> simp_all [abs_nonneg]
  · have h5 : ¬ (p.y < p.radius) := by push_neg at hy1 ⊢; linarith
    split_ifs <;> simp_all [abs_nonneg, neg_nonpos] <;>
      rw [if_neg (not_lt.mpr h5)] <;>
      simp [abs_nonneg, neg_nonpos]

/-- C10 (witness): the particle `tLeft` violates the left wall with an
already-inward velocity `vx = 5`; the corrected `vx` is `|5| = 5 ≥ 0`
(a plain sign inversion would have flipped it outward to `-5`). -/
theorem checkBoundary_velocity_points_inward_witness :
    (tLeft.checkBoundary 800 600).vx = |tLeft.vx| ∧
    0 ≤ (tLeft.checkBoundary 800 600).vx :=
  (checkBoundary_velocity_points_inward tLeft 800 600).1
    (by norm_num [tLeft, tC2])

/-!
### C5 — Newton's third law in the whole-system force pass
-/

/-- Swapping the argument order of `coulombPairForce` negates both force
components: the clamped distance and the clamped scalar magnitude are
symmetric in the pair while `dx` and `dy` change sign. -/
theorem coulombPairForce_swap (e : PhysicsEngine2) (p1 p2 : PParticle) :
    e.coulombPairForce p2 p1 =
      (-(e.coulombPairForce p1 p2).1, -(e.coulombPairForce p1 p2).2) := by
  simp only [PhysicsEngine2.coulombPairForce]
  have harg : (p1.x - p2.x) * (p1.x - p2.x) + (p1.y - p2.y) * (p1.y - p2.y)
      = (p2.x - p1.x) * (p2.x - p1.x) + (p2.y - p1.y) * (p2.y - p1.y) := by ring
  have hch : e.coulombConstant * p2.charge * p1.charge
      = e.coulombConstant * p1.charge * p2.charge := by ring
  rw [harg, hch]
  refine Prod.ext ?_ ?_ <;> ring

/-- Swapping the argument order of `calculateCoulombForce` of the
`part_003` engine negates both force components. -/
theorem calculateCoulombForce_swap (e : PhysicsEngine3) (p1 p2 : TParticle) :
    (e.calculateCoulombForce p2 p1).fx = -(e.calculateCoulombForce p1 p2).fx ∧
    (e.calculateCoulombForce p2 p1).fy = -(e.calculateCoulombForce p1 p2).fy := by
  simp only [PhysicsEngine3.calculateCoulombForce]
  have harg : (p1.x - p2.x) * (p1.x - p2.x) + (p1.y - p2.y) * (p1.y - p2.y)
      = (p2.x - p1.x) * (p2.x - p1.x) + (p2.y - p1.y) * (p2.y - p1.y) := by ring
  have hch : e.k * p2.charge * p1.charge = e.k * p1.charge * p2.charge := by ring
  rw [harg, hch]
  constructor <;> ring

/-- C5: in both variants' whole-system force passes, the pair loop hands
the second particle exactly the componentwise negation of the vector
handed to the first, and this holds for any ordering of the pair: the
vector a particle receives from a pair does not depend on which position
it occupies in the loop. -/
theorem pair_force_newtons_third_law
    (e2 : PhysicsEngine2) (p1 p2 : PParticle)
    (e3 : PhysicsEngine3) (q1 q2 : TParticle) (m : ℝ) :
    (e2.pairApplication p1 p2).2 =
      (-(e2.pairApplication p1 p2).1.1, -(e2.pairApplication p1 p2).1.2) ∧
    (e2.pairApplication p2 p1).1 = (e2.pairApplication p1 p2).2 ∧
    (e3.pairApplication q1 q2 m).2 =
      (-(e3.pairApplication q1 q2 m).1.1, -(e3.pairApplication q1 q2 m).1.2) ∧
    (e3.pairApplication q2 q1 m).1 = (e3.pairApplication q1 q2 m).2 := by
  obtain ⟨hx3, hy3⟩ := calculateCoulombForce_swap e3 q1 q2
  refine ⟨rfl, ?_, ?_, ?_⟩
  · simp only [PhysicsEngine2.pairApplication, coulombPairForce_swap e2 p1 p2]
  · simp only [PhysicsEngine3.pairApplication]
    refine Prod.ext ?_ ?_ <;> ring
  · simp only [PhysicsEngine3.pairApplication, hx3, hy3]

/-!
### C6 — positions lie in `[0, width] × [0, height]` after the boundary phase
-/

/-- After one pass of the per-particle body of `handleBoundaries`, the
position lies in `[0, width] × [0, height]`, provided the radius is
nonnegative and the canvas is at least two radii wide and tall. -/
theorem handleBoundary_position_bounds (e : PhysicsEngine2) (p : PParticle)
    (hr : 0 ≤ p.radius) (hw : p.radius * 2 ≤ e.width)
    (hh : p.radius * 2 ≤ e.height) :
    0 ≤ (e.handleBoundary p).x ∧ (e.handleBoundary p).x ≤ e.width ∧
    0 ≤ (e.handleBoundary p).y ∧ (e.handleBoundary p).y ≤ e.height := by
  simp only [PhysicsEngine2.handleBoundary]
  split_ifs <;>
    refine ⟨?_, ?_, ?_, ?_⟩ <;> simp_all <;> linarith

/-- C6: every particle in the output of the `handleBoundaries` phase of
the tick pipeline has its position inside `[0, width] × [0, height]`,
provided every input particle has a nonnegative radius fitting the
canvas. -/
theorem handleBoundaries_position_in_bounds (e : PhysicsEngine2)
    (ps : List PParticle) (q : PParticle)
    (hq : q ∈ e.handleBoundaries ps)
    (hr : ∀ p ∈ ps, 0 ≤ p.radius ∧ p.radius * 2 ≤ e.width ∧
      p.radius * 2 ≤ e.height) :
    0 ≤ q.x ∧ q.x ≤ e.width ∧ 0 ≤ q.y ∧ q.y ≤ e.height := by
  simp only [PhysicsEngine2.handleBoundaries, List.mem_map] at hq
  obtain ⟨p, hp, rfl⟩ := hq
  obtain ⟨h1, h2, h3⟩ := hr p hp
  exact handleBoundary_position_bounds e p h1 h2 h3

/-- C6 (witness): the boundary phase run on a single out-of-bounds
particle (`p8` shifted left of the canvas) yields a position inside the
default 800×600 canvas. -/
theorem handleBoundaries_position_in_bounds_witness :
    0 ≤ (engine0.handleBoundary { p8 with x := -50, y := 700 }).x ∧
    (engine0.handleBoundary { p8 with x := -50, y := 700 }).x ≤ engine0.width ∧
    0 ≤ (engine0.handleBoundary { p8 with x := -50, y := 700 }).y ∧
    (engine0.handleBoundary { p8 with x := -50, y := 700 }).y ≤ engine0.height :=
  handleBoundaries_position_in_bounds engine0 [{ p8 with x := -50, y := 700 }]
    (engine0.handleBoundary { p8 with x := -50, y := 700 })
    (by simp [PhysicsEngine2.handleBoundaries])
    (by intro p hp
        simp only [List.mem_singleton] at hp
        subst hp
        norm_num [p8, engine0, PhysicsEngine2.mk0])

/-!
### C1 — `initializeParticles` with a non-positive count
-/

/-- A fixed stream of random draws. -/
def draws0 : ℕ → RandomDraw :=
  fun _ => { posX := 0.5, posY := 0.5, chargeDraw := 0.5, velX := 0.5,
             velY := 0.5 }

/-- A simulation state holding one particle. -/
def simState0 : SimState :=
  { engine := engine0, particles := [qIn], isRunning := true, lastTime := 0,
    frameTimes := [], frameTimesMaxLength := 60, fps := 0 }

/-- C1 (counterexample): `initializeParticles(0)` is not rejected and does
not leave the prior particle collection unchanged: on a state holding one
particle it silently replaces the collection with the empty one. -/
theorem initializeParticles_zero_not_rejected :
    (simState0.initializeParticles 0 draws0).particles = [] ∧
    simState0.particles ≠ [] := by
  constructor
  · simp [SimState.initializeParticles, QuantumSim.initializeParticles,
      simState0]
  · simp [simState0]

/-- C1 (amended): `initializeParticles` performs no validation: for any
non-positive `count` the creation loop runs zero times, so the prior
collection is silently replaced by the empty collection with no error
reported; the `averageVelocity` statistic of the resulting empty
simulation is a guarded `0`, not `NaN`, because `getStats` divides by
`max(count, 1)`. -/
theorem initializeParticles_nonpositive_silently_empty
    (s : SimState) (count : ℤ) (hc : count ≤ 0) (draws : ℕ → RandomDraw) :
    (s.initializeParticles count draws).particles = [] ∧
    averageVelocity (s.initializeParticles count draws).particles = 0 := by
  have h0 : count.toNat = 0 := Int.toNat_of_nonpos hc
  constructor
  · simp [SimState.initializeParticles, QuantumSim.initializeParticles, h0]
  · simp [SimState.initializeParticles, QuantumSim.initializeParticles, h0,
      averageVelocity]

/-- C1 (witness): the amended statement at the concrete state `simState0`
with `count = 0`. -/
theorem initializeParticles_nonpositive_silently_empty_witness :
    (simState0.initializeParticles 0 draws0).particles = [] ∧
    averageVelocity (simState0.initializeParticles 0 draws0).particles = 0 :=
  initializeParticles_nonpositive_silently_empty simState0 0 (by norm_num)
    draws0

/-!
### C2 — the Free-mode integration sequence

The typed variant (`src/unnamed/part_004`) implements the claimed
sequence exactly, with damping `0.99`.  The plain variant
(`particle.js`) omits the damping multiplication entirely, although the
constructor comments of its own physics engine (`part_002`, second
class) state that the velocity is multiplied by `damping = 0.995` every
frame; there damping is in fact only applied on wall bounces.
-/

/-- C2: at the failing input — a free particle with velocity `(1, 0)`, no
accumulated force, `dt = 1` — the plain variant's `update` leaves the
velocity at exactly `1`, while the claimed sequence (damping `0.995` as
documented in the engine constructor) yields `0.995`; the typed
variant's `update` does damp, yielding `0.99`. -/
theorem update_free_damping_divergence :
    (pC2.update 1).vx = 1 ∧
    (specFreeUpdateP 0.995 pC2 1).vx = 0.995 ∧
    (1 : ℝ) ≠ 0.995 ∧
    (tC2.update 1).vx = 0.99 := by
  have hfree : ¬ (tC2.kind = PKind.electron ∧ tC2.hasNucleus = true) := by
    rintro ⟨h, -⟩
    simp [tC2] at h
  have hquark : ¬ (tC2.kind = PKind.quark ∧ tC2.hasParent = true) := by
    rintro ⟨h, -⟩
    simp [tC2] at h
  refine ⟨?_, ?_, by norm_num, ?_⟩
  · simp [PParticle.update, pC2]
  · simp [specFreeUpdateP, pC2]
  · simp [TParticle.update, hfree, hquark, tC2]

/-!
### C3 — pair potential energy and the distance clamp
-/

/-- The singularity clamp written as an `if` equals a `max`. -/
theorem ite_lt_eq_max (a b : ℝ) : (if a < b then b else a) = max a b := by
  rcases lt_or_ge a b with h | h
  · rw [if_pos h, max_eq_right h.le]
  · rw [if_neg (not_lt.mpr h), max_eq_left h]

/-- A unit positive charge at the origin. -/
def pe1a : PParticle := mkParticle 0 0 1 0.5 0.5

/-- A unit positive charge one unit to the right of the origin. -/
def pe1b : PParticle := mkParticle 1 0 1 0.5 0.5

/-- C3 (counterexample): the potential-energy term of
`calculateTotalEnergy` of the first `part_002` engine does NOT clamp the
distance: for two unit charges one unit apart it reports
`500·1·1/1 = 500`, while the claimed clamped value is `500/20 = 25`. -/
theorem pairPotentialEnergy_unclamped_counterexample :
    PhysicsEngine1.mk0.pairPotentialEnergy pe1a pe1b = 500 ∧
    specPairPotentialEnergy 500 20 pe1a.x pe1a.y pe1a.charge
      pe1b.x pe1b.y pe1b.charge = 25 ∧
    (500 : ℝ) ≠ 25 := by
  refine ⟨?_, ?_, by norm_num⟩
  · simp only [PhysicsEngine1.pairPotentialEnergy, PhysicsEngine1.mk0,
      pe1a, pe1b, mkParticle]
    norm_num [Real.sqrt_one]
  · simp only [specPairPotentialEnergy, pe1a, pe1b, mkParticle]
    norm_num [Real.sqrt_one,
      max_eq_right (show (1 : ℝ) ≤ 20 by norm_num)]

/-- C3 (amended): in the engines that do clamp — `calculatePotentialEnergy`
of the second `part_002` engine and of `part_003` — the pair potential
energy equals `k·q1·q2 / max(r, minDistance)` exactly, and the `maxForce`
setting never enters the value (two engines differing only in `maxForce`
report identical pair energies); the potential-energy term of
`calculateTotalEnergy` of the first `part_002` engine instead divides by
the raw unclamped distance. -/
theorem pairPotentialEnergy_clamped_no_maxForce
    (e e' : PhysicsEngine2) (p1 p2 : PParticle)
    (hk : e'.coulombConstant = e.coulombConstant)
    (hm : e'.minDistance = e.minDistance)
    (e3 : PhysicsEngine3) (q1 q2 : TParticle) :
    e.pairPotentialEnergy p1 p2 = e'.pairPotentialEnergy p1 p2 ∧
    e.pairPotentialEnergy p1 p2 =
      specPairPotentialEnergy e.coulombConstant e.minDistance
        p1.x p1.y p1.charge p2.x p2.y p2.charge ∧
    e3.calculatePotentialEnergy q1 q2 =
      specPairPotentialEnergy e3.k e3.minDistance
        q1.x q1.y q1.charge q2.x q2.y q2.charge := by
  refine ⟨?_, ?_, ?_⟩
  · simp [PhysicsEngine2.pairPotentialEnergy, hk, hm]
  · simp only [PhysicsEngine2.pairPotentialEnergy, specPairPotentialEnergy,
      ite_lt_eq_max]
  · simp only [PhysicsEngine3.calculatePotentialEnergy,
      specPairPotentialEnergy, ite_lt_eq_max]

/-- The default engine with its `maxForce` changed from `100` to `1`. -/
def engine0' : PhysicsEngine2 := { engine0 with maxForce := 1 }

/-- A typed unit positive charge at the origin. -/
def te3a : TParticle := { tC2 with x := 0, y := 0 }

/-- A typed unit positive charge one unit to the right of the origin. -/
def te3b : TParticle := { tC2 with x := 1, y := 0 }

/-- C3 (witness): the amended statement at the default engines, a
`maxForce`-modified copy, and concrete particle pairs. -/
theorem pairPotentialEnergy_clamped_no_maxForce_witness :
    engine0.pairPotentialEnergy pe1a pe1b =
      engine0'.pairPotentialEnergy pe1a pe1b ∧
    engine0.pairPotentialEnergy pe1a pe1b =
      specPairPotentialEnergy engine0.coulombConstant engine0.minDistance
        pe1a.x pe1a.y pe1a.charge pe1b.x pe1b.y pe1b.charge ∧
    PhysicsEngine3.mk0.calculatePotentialEnergy te3a te3b =
      specPairPotentialEnergy PhysicsEngine3.mk0.k
        PhysicsEngine3.mk0.minDistance
        te3a.x te3a.y te3a.charge te3b.x te3b.y te3b.charge :=
  pairPotentialEnergy_clamped_no_maxForce engine0 engine0' pe1a pe1b
    rfl rfl PhysicsEngine3.mk0 te3a te3b

/-!
### C4 — the `maxForce` clamp and the applied force vector

The code clamps the *scalar* magnitude (computed from the clamped
distance) to `maxForce`, but then multiplies by `(dx/distance,
dy/distance)`, whose norm is `rawDistance / clampedDistance`.  When the
raw distance is below `minDistance` — exactly the regime the spec's
scenario describes — the applied vector is therefore strictly shorter
than `maxForce`.
-/

/-- The `part_003` engine with a small `maxForce` of `1/2`. -/
def engineSmallMax : PhysicsEngine3 :=
  { k := 500, minDistance := 20, maxForce := 1 / 2 }

/-- A typed unit positive charge at distance `0.001` from the origin. -/
def tq2 : TParticle := { tC2 with x := 1 / 1000, y := 0 }

/-- C4 (counterexample): two unit charges at distance `0.001` with
`maxForce = 1/2`: the scalar magnitude is clamped to `1/2`, but the
applied force vector is `(1/2 · (0.001/20), 0)`, whose norm `1/40000` is
not `maxForce`. -/
theorem maxForce_clamp_vector_counterexample :
    (engineSmallMax.calculateCoulombForce te3a tq2).fx = 1 / 40000 ∧
    (engineSmallMax.calculateCoulombForce te3a tq2).fy = 0 ∧
    Real.sqrt ((engineSmallMax.calculateCoulombForce te3a tq2).fx ^ 2 +
        (engineSmallMax.calculateCoulombForce te3a tq2).fy ^ 2) ≠
      engineSmallMax.maxForce := by
  have key : engineSmallMax.calculateCoulombForce te3a tq2 =
      { fx := 1 / 40000, fy := 0, distance := 20 } := by
    simp only [PhysicsEngine3.calculateCoulombForce]
    have e1 : tq2.x - te3a.x = 1 / 1000 := by norm_num [tq2, te3a, tC2]
    have e2 : tq2.y - te3a.y = 0 := by norm_num [tq2, te3a, tC2]
    rw [e1, e2]
    have e3 : Real.sqrt ((1 / 1000 : ℝ) * (1 / 1000) + 0 * 0) = 1 / 1000 := by
      rw [show ((1 / 1000 : ℝ) * (1 / 1000) + 0 * 0) = (1 / 1000) ^ 2 by ring,
        Real.sqrt_sq (by norm_num)]
    rw [e3]
    rw [if_pos (show (1 / 1000 : ℝ) < engineSmallMax.minDistance by
      norm_num [engineSmallMax])]
    have e4 : engineSmallMax.k * te3a.charge * tq2.charge /
        (engineSmallMax.minDistance * engineSmallMax.minDistance) = 5 / 4 := by
      norm_num [engineSmallMax, tq2, te3a, tC2]
    rw [e4]
    rw [if_pos (show |(5 / 4 : ℝ)| > engineSmallMax.maxForce by
      rw [abs_of_pos (by norm_num)]; norm_num [engineSmallMax])]
    rw [Real.sign_of_pos (by norm_num : (0 : ℝ) < 5 / 4)]
    norm_num [engineSmallMax, ForceResult.mk.injEq]
  rw [key]
  refine ⟨rfl, rfl, ?_⟩
  rw [show ((1 / 40000 : ℝ) ^ 2 + (0 : ℝ) ^ 2) = (1 / 40000 : ℝ) ^ 2 by ring,
    Real.sqrt_sq (by norm_num)]
  norm_num [engineSmallMax]

/-- C4 (amended): whenever the scalar magnitude computed from the clamped
distance exceeds `maxForce` in absolute value AND the raw distance is at
least `minDistance` (so the direction vector is a true unit vector), the
applied force vector has norm exactly `maxForce`:
`fx² + fy² = maxForce²`.  When the raw distance is below `minDistance`
the applied norm is instead `maxForce · rawDistance / minDistance`
(see the counterexample). -/
theorem maxForce_clamp_exact_at_unclamped_distance
    (e : PhysicsEngine3) (p1 p2 : TParticle)
    (hmin : 0 < e.minDistance)
    (hdist : e.minDistance ≤ Real.sqrt ((p2.x - p1.x) * (p2.x - p1.x) +
      (p2.y - p1.y) * (p2.y - p1.y)))
    (hmf : 0 ≤ e.maxForce)
    (hbig : e.maxForce < |e.k * p1.charge * p2.charge /
      (Real.sqrt ((p2.x - p1.x) * (p2.x - p1.x) +
          (p2.y - p1.y) * (p2.y - p1.y)) *
        Real.sqrt ((p2.x - p1.x) * (p2.x - p1.x) +
          (p2.y - p1.y) * (p2.y - p1.y)))|) :
    (e.calculateCoulombForce p1 p2).fx ^ 2 +
      (e.calculateCoulombForce p1 p2).fy ^ 2 = e.maxForce ^ 2 := by
  simp only [PhysicsEngine3.calculateCoulombForce]
  set dx := p2.x - p1.x with hdxdef
  set dy := p2.y - p1.y with hdydef
  set d0 := Real.sqrt (dx * dx + dy * dy) with hd0def
  have hd0pos : 0 < d0 := lt_of_lt_of_le hmin hdist
  have hsq : d0 * d0 = dx * dx + dy * dy := by
    rw [hd0def]
    exact Real.mul_self_sqrt
      (add_nonneg (mul_self_nonneg dx) (mul_self_nonneg dy))
  rw [if_neg (not_lt.mpr hdist)]
  set fm0 := e.k * p1.charge * p2.charge / (d0 * d0) with hfm0def
  rw [if_pos hbig]
  have hne : fm0 ≠ 0 := by
    intro h
    rw [h, abs_zero] at hbig
    exact absurd hbig (not_lt.mpr hmf)
  have hsign : Real.sign fm0 ^ 2 = 1 := by
    rcases lt_or_gt_of_ne hne with h | h
    · rw [Real.sign_of_neg h]
      norm_num
    · rw [Real.sign_of_pos h]
      norm_num
  have hd0ne : d0 * d0 ≠ 0 :=
    mul_ne_zero (ne_of_gt hd0pos) (ne_of_gt hd0pos)
  calc (Real.sign fm0 * e.maxForce * (dx / d0)) ^ 2 +
        (Real.sign fm0 * e.maxForce * (dy / d0)) ^ 2
      = Real.sign fm0 ^ 2 * e.maxForce ^ 2 *
          ((dx * dx + dy * dy) / (d0 * d0)) := by ring
    _ = e.maxForce ^ 2 := by
        rw [hsign, ← hsq, div_self hd0ne]
        ring

/-- The `part_003` engine shape with a large force scale `k = 16000`. -/
def engineBig : PhysicsEngine3 := { k := 16000, minDistance := 20, maxForce := 1 }

/-- A typed unit positive charge at `(20, 0)`. -/
def tw2 : TParticle := { tC2 with x := 20, y := 0 }

/-- C4 (witness): with `k = 16000`, `minDistance = 20`, `maxForce = 1` and
unit charges exactly `20` apart, the unclamped magnitude is `40 > 1` and
the applied vector norm squared is exactly `maxForce²`. -/
theorem maxForce_clamp_exact_witness :
    (engineBig.calculateCoulombForce te3a tw2).fx ^ 2 +
      (engineBig.calculateCoulombForce te3a tw2).fy ^ 2 =
    engineBig.maxForce ^ 2 := by
  have h20 : Real.sqrt ((tw2.x - te3a.x) * (tw2.x - te3a.x) +
      (tw2.y - te3a.y) * (tw2.y - te3a.y)) = 20 := by
    rw [show ((tw2.x - te3a.x) * (tw2.x - te3a.x) +
        (tw2.y - te3a.y) * (tw2.y - te3a.y) : ℝ) = 20 ^ 2 by
          norm_num [tw2, te3a, tC2],
      Real.sqrt_sq (by norm_num)]
  refine maxForce_clamp_exact_at_unclamped_distance engineBig te3a tw2
    (by norm_num [engineBig]) ?_ (by norm_num [engineBig]) ?_
  · rw [h20]
    norm_num [engineBig]
  · rw [h20]
    rw [show (engineBig.k * te3a.charge * tw2.charge / ((20 : ℝ) * 20)) = 40 by
      norm_num [engineBig, te3a, tw2, tC2]]
    rw [abs_of_pos (by norm_num)]
    norm_num [engineBig]

/-!
### C7 — a 5-second delta versus the 0.1-second clamp ceiling

The physics pipeline sees only the clamped `dt`, so particle state is
identical in the two runs; but `frameTimes` records the *unclamped*
`dt`, so the externally reported `fps` statistic differs (and so does
the stored `lastTime`).
-/

/-- A running simulation state with no particles, `lastTime = 0` and an
empty frame-time window. -/
def simEmpty : SimState :=
  { engine := engine0, particles := [], isRunning := true, lastTime := 0,
    frameTimes := [], frameTimesMaxLength := 60, fps := 0 }

/-- C7 (counterexample): ticking `simEmpty` with a wall-clock delta of 5
seconds (`currentTime = 5000` ms) reports `fps = round(1/5) = 0`, while
ticking it with the clamp ceiling 0.1 s (`currentTime = 100` ms) reports
`fps = round(1/0.1) = 10`: the externally observable statistics are not
identical. -/
theorem animate_fps_differs_on_unclamped_dt :
    (simEmpty.animate 5000).fps = 0 ∧
    (simEmpty.animate 100).fps = 10 ∧
    (0 : ℤ) ≠ 10 := by
  refine ⟨?_, ?_, by norm_num⟩
  · simp only [SimState.animate, simEmpty, engine0, PhysicsEngine2.mk0,
      PhysicsEngine2.applyCoulombForce, PhysicsEngine2.handleBoundaries]
    norm_num
  · simp only [SimState.animate, simEmpty, engine0, PhysicsEngine2.mk0,
      PhysicsEngine2.applyCoulombForce, PhysicsEngine2.handleBoundaries]
    norm_num

/-- C7 (amended): whenever the raw wall-clock delta is at least the clamp
ceiling 0.1 s, the particle state after the tick is exactly the state
produced by a tick whose delta equals the ceiling — positions and
velocities show no large jump; the `fps` statistic and the stored
`lastTime`, however, are computed from the unclamped delta and differ
between the two runs. -/
theorem animate_clamped_dt_same_particles (s : SimState) (t1 t2 : ℝ)
    (h1 : 0.1 ≤ (t1 - s.lastTime) / 1000)
    (h2 : 0.1 ≤ (t2 - s.lastTime) / 1000) :
    (s.animate t1).particles = (s.animate t2).particles := by
  unfold SimState.animate
  by_cases hr : s.isRunning = false
  · simp [hr]
  · simp only [hr, if_false]
    rw [min_eq_right h1, min_eq_right h2]
    simp

/-- C7 (witness): the amended statement at `simEmpty` with deltas of 5 s
and 0.1 s. -/
theorem animate_clamped_dt_same_particles_witness :
    (simEmpty.animate 5000).particles = (simEmpty.animate 100).particles :=
  animate_clamped_dt_same_particles simEmpty 5000 100
    (by norm_num [simEmpty]) (by norm_num [simEmpty])

end QuantumSim
